import Mathlib

/-!
Verification of the wigle2 GPU compute core.

This file shallowly embeds the two core subsystems of the repository:

* `src/core/GPUComputationRenderer.js` — the double-buffered, dependency-driven
  GPGPU engine (ping-pong render targets, one global current/next index,
  per-variable fragment-shader kernels bound to dependency textures by name);
* `src/core/EnergyLifeSimulation.js` — the hierarchical 2x2-average reduction
  pipeline (`#ensureDownsamplePipeline`, `#computeAverage`) and the
  size-change reinitialization path;
* `src/shaders/lifecycle.glsl` / `getLifecycleShader` — the per-cell energy
  lifecycle kernel, and `getDownsampleFragmentShader` — the reduction kernel.

GPU buffers are modeled as total functions from texel coordinates to values;
GLSL floats are modeled as real numbers (for the transcendental lifecycle
kernel) or as elements of an arbitrary linear ordered field (for the purely
arithmetic reduction kernel).  A render target's contents are the value the
last render wrote into it; `renderTexture` through the pass-through shader is
an exact per-texel copy (nearest filtering, identical sizes).  JavaScript
object references to variables are modeled as indices into the engine's
`variables` array.
-/

namespace Wigle2

/-! ### GPUComputationRenderer (src/core/GPUComputationRenderer.js)

A variable owns two render targets (the ping-pong pair), a shader material
(modeled as a function from the bound sampler uniforms to the buffer it
renders), the mutable uniform bindings of that material, and the declared
dependency list (references to variable objects, modeled as indices into the
engine's `variables` array). -/

structure ComputeVariable (α : Type) where
  name : String
  renderTargets : Fin 2 → α
  material : (String → Option α) → α
  uniforms : String → Option α
  dependencies : List Nat

/-- The engine: the registered variables and the single engine-wide
current-texture index (`this.currentTextureIndex`, initialized to 0). -/
structure GPUComputationRenderer (α : Type) where
  vars : List (ComputeVariable α)
  currentTextureIndex : Fin 2

/-- `const nextTextureIndex = (currentTextureIndex + 1) % 2;` -/
def nextIndex (i : Fin 2) : Fin 2 := ⟨(i.val + 1) % 2, by omega⟩

/-- `renderTexture(texture, renderTarget)` renders `texture` through the
pass-through shader into the target: an exact copy of the texture's
contents (nearest filtering, source and target have the engine's size). -/
def renderTexture {α : Type} (texture : α) : α := texture

/-- `addVariable(variableName, fragmentShader, initialTexture)`: creates the
variable with two freshly created render targets and initializes both of
them from `initialTexture` via `renderTexture`.  Returns the updated engine
and the variable object. -/
def addVariable {α : Type} (st : GPUComputationRenderer α) (variableName : String)
    (fragmentShader : (String → Option α) → α) (initialTexture : α) :
    GPUComputationRenderer α × ComputeVariable α :=
  let v : ComputeVariable α :=
    { name := variableName
      material := fragmentShader
      uniforms := fun _ => none
      -- two render targets are created and both immediately initialized:
      -- this.renderTexture(initialTexture, v.renderTargets[0]);
      -- this.renderTexture(initialTexture, v.renderTargets[1]);
      renderTargets := fun _ => renderTexture initialTexture
      dependencies := [] }
  ({ st with vars := st.vars ++ [v] }, v)

/-- `setVariableDependencies(variable, dependencies)` is a bare assignment
`v.dependencies = dependencies;` — no validation of any kind. -/
def setVariableDependencies {α : Type} (st : GPUComputationRenderer α) (i : Nat)
    (dependencies : List Nat) : GPUComputationRenderer α :=
  match st.vars[i]? with
  | none => st
  | some v =>
    { st with vars := st.vars.set i { v with dependencies := dependencies } }

/-- Binding loop of `compute()`: for each dependency, bind its current render
target's texture as a sampler uniform under the dependency's name:
`v.material.uniforms[name] = { value: dependency.renderTargets[currentTextureIndex].texture }`. -/
def bindDependencies {α : Type} (vars : List (ComputeVariable α)) (cur : Fin 2)
    (deps : List Nat) (uniforms : String → Option α) : String → Option α :=
  deps.foldl (fun u d =>
    match vars[d]? with
    | some dependency => Function.update u dependency.name (some (dependency.renderTargets cur))
    | none => u) uniforms

/-- One iteration of the `compute()` loop body for variable `i`: bind the
dependencies' current textures, then render the variable's shader into its
next render target (`renderTargets[nextTextureIndex]`). -/
def computeDispatch {α : Type} (cur next : Fin 2) (st : GPUComputationRenderer α) (i : Nat) :
    GPUComputationRenderer α :=
  match st.vars[i]? with
  | none => st
  | some v =>
    let uniforms := bindDependencies st.vars cur v.dependencies v.uniforms
    let output := v.material uniforms
    let v' := { v with
                uniforms := uniforms
                renderTargets := Function.update v.renderTargets next output }
    { st with vars := st.vars.set i v' }

/-- The variable object as it stands right after its dispatch in `compute()`:
uniforms rebound from the dependencies' current textures, and the shader's
output rendered into the next render target. -/
def dispatchedVariable {α : Type} (vars : List (ComputeVariable α)) (cur next : Fin 2)
    (v : ComputeVariable α) : ComputeVariable α :=
  { v with
    uniforms := bindDependencies vars cur v.dependencies v.uniforms
    renderTargets := Function.update v.renderTargets next
      (v.material (bindDependencies vars cur v.dependencies v.uniforms)) }

/-- The dispatch phase of `compute()`: the `for (let i = 0; ...)` loop over the
first `n` variables, with the current/next indices captured before the loop. -/
def dispatchAll {α : Type} (st : GPUComputationRenderer α) (n : Nat) :
    GPUComputationRenderer α :=
  (List.range n).foldl (computeDispatch st.currentTextureIndex (nextIndex st.currentTextureIndex)) st

/-- `compute()`: dispatch every registered variable, then (and only then)
`this.currentTextureIndex = nextTextureIndex;`. -/
def compute {α : Type} (st : GPUComputationRenderer α) : GPUComputationRenderer α :=
  { dispatchAll st st.vars.length with
    currentTextureIndex := nextIndex st.currentTextureIndex }

/-- `getCurrentRenderTarget(variable)` returns
`v.renderTargets[this.currentTextureIndex]`. -/
def getCurrentRenderTarget {α : Type} (st : GPUComputationRenderer α)
    (v : ComputeVariable α) : α :=
  v.renderTargets st.currentTextureIndex

lemma nextIndex_ne (i : Fin 2) : nextIndex i ≠ i := by
  fin_cases i <;> decide

lemma nextIndex_ne_symm (i : Fin 2) : i ≠ nextIndex i := fun h => nextIndex_ne i h.symm

/-! ### Invariants of the compute() dispatch loop -/

lemma bindDependencies_cons {α : Type} (vars : List (ComputeVariable α)) (cur : Fin 2)
    (d : Nat) (rest : List Nat) (u : String → Option α) :
    bindDependencies vars cur (d :: rest) u =
      bindDependencies vars cur rest
        (match vars[d]? with
         | some dependency =>
             Function.update u dependency.name (some (dependency.renderTargets cur))
         | none => u) := rfl

/-- The contribution of a dependency to the uniform binding depends only on its
name and the contents of its render target at the captured current index. -/
lemma bindDependencies_congr {α : Type} (cur : Fin 2)
    (vars vars' : List (ComputeVariable α))
    (h : ∀ d : Nat, vars'[d]? = vars[d]? ∨
      ∃ (w w' : ComputeVariable α), vars[d]? = some w ∧ vars'[d]? = some w' ∧
        w'.name = w.name ∧ w'.renderTargets cur = w.renderTargets cur) :
    ∀ (deps : List Nat) (u : String → Option α),
      bindDependencies vars' cur deps u = bindDependencies vars cur deps u := by
  intro deps
  induction deps with
  | nil => intro u; rfl
  | cons d rest ih =>
    intro u
    rw [bindDependencies_cons, bindDependencies_cons]
    rcases h d with heq | ⟨w, w', hw, hw', hname, hrt⟩
    · rw [heq]; exact ih _
    · rw [hw, hw']
      show bindDependencies vars' cur rest
          (Function.update u w'.name (some (w'.renderTargets cur))) =
        bindDependencies vars cur rest
          (Function.update u w.name (some (w.renderTargets cur)))
      rw [hname, hrt]; exact ih _

lemma computeDispatch_none {α : Type} {cur next : Fin 2} {st : GPUComputationRenderer α}
    {i : Nat} (h : st.vars[i]? = none) : computeDispatch cur next st i = st := by
  unfold computeDispatch; rw [h]

lemma computeDispatch_some {α : Type} {cur next : Fin 2} {st : GPUComputationRenderer α}
    {i : Nat} {v : ComputeVariable α} (h : st.vars[i]? = some v) :
    computeDispatch cur next st i =
      { st with vars := st.vars.set i (dispatchedVariable st.vars cur next v) } := by
  unfold computeDispatch; rw [h]; rfl

/-- Invariant of the `compute()` loop after the first `n` iterations: the
engine-wide index is untouched, the variable list keeps its length, variables
not yet dispatched are untouched, and each dispatched variable has had exactly
its next render target rendered, from uniforms bound against the pre-step
state. -/
lemma foldlDispatch_spec {α : Type} (cur next : Fin 2) (hcn : cur ≠ next)
    (st : GPUComputationRenderer α) (n : Nat) :
    ((List.range n).foldl (computeDispatch cur next) st).currentTextureIndex
        = st.currentTextureIndex ∧
    ((List.range n).foldl (computeDispatch cur next) st).vars.length = st.vars.length ∧
    (∀ j, n ≤ j →
      ((List.range n).foldl (computeDispatch cur next) st).vars[j]? = st.vars[j]?) ∧
    (∀ j v, j < n → st.vars[j]? = some v →
      ((List.range n).foldl (computeDispatch cur next) st).vars[j]? =
        some (dispatchedVariable st.vars cur next v)) := by
  induction n with
  | zero =>
    exact ⟨rfl, rfl, fun j _ => rfl, fun j v hj => absurd hj (Nat.not_lt_zero j)⟩
  | succ n ih =>
    obtain ⟨ihIdx, ihLen, ihHi, ihLo⟩ := ih
    rw [List.range_succ, List.foldl_append, List.foldl_cons, List.foldl_nil]
    cases hv : st.vars[n]? with
    | none =>
      have hAn : ((List.range n).foldl (computeDispatch cur next) st).vars[n]? = none :=
        (ihHi n le_rfl).trans hv
      rw [computeDispatch_none hAn]
      refine ⟨ihIdx, ihLen, fun j hj => ihHi j (Nat.le_of_succ_le hj), ?_⟩
      intro j w hj hw
      rcases Nat.lt_succ_iff_lt_or_eq.mp hj with h | rfl
      · exact ihLo j w h hw
      · rw [hv] at hw; cases hw
    | some v =>
      have hAn : ((List.range n).foldl (computeDispatch cur next) st).vars[n]? = some v :=
        (ihHi n le_rfl).trans hv
      rw [computeDispatch_some hAn]
      have hrel : ∀ d : Nat, ((List.range n).foldl (computeDispatch cur next) st).vars[d]?
            = st.vars[d]? ∨
          ∃ (w w' : ComputeVariable α), st.vars[d]? = some w ∧
            ((List.range n).foldl (computeDispatch cur next) st).vars[d]? = some w' ∧
            w'.name = w.name ∧ w'.renderTargets cur = w.renderTargets cur := by
        intro d
        by_cases hd : n ≤ d
        · exact Or.inl (ihHi d hd)
        · push_neg at hd
          cases hw : st.vars[d]? with
          | none =>
            refine Or.inl ?_
            have hlen : st.vars.length ≤ d := List.getElem?_eq_none_iff.mp hw
            exact List.getElem?_eq_none (by rw [ihLen]; exact hlen)
          | some w =>
            refine Or.inr ⟨w, _, rfl, ihLo d w hd hw, rfl, ?_⟩
            exact Function.update_noteq hcn _ _
      have hbind : ∀ (deps : List Nat) (u : String → Option α),
          bindDependencies ((List.range n).foldl (computeDispatch cur next) st).vars
            cur deps u = bindDependencies st.vars cur deps u :=
        bindDependencies_congr cur st.vars _ hrel
      refine ⟨ihIdx, ?_, ?_, ?_⟩
      · rw [List.length_set]; exact ihLen
      · intro j hj
        have hne : n ≠ j := by omega
        rw [List.getElem?_set_ne hne]
        exact ihHi j (Nat.le_of_succ_le hj)
      · intro j w hj hw
        rcases Nat.lt_succ_iff_lt_or_eq.mp hj with h | heq
        · have hne : n ≠ j := by omega
          rw [List.getElem?_set_ne hne]
          exact ihLo j w h hw
        · subst heq
          have hwv : v = w := Option.some.inj (hv.symm.trans hw)
          subst hwv
          have hlt : j < ((List.range j).foldl (computeDispatch cur next) st).vars.length := by
            rw [ihLen]
            exact (List.getElem?_eq_some_iff.mp hw).1
          show (((List.range j).foldl (computeDispatch cur next) st).vars.set j
              (dispatchedVariable ((List.range j).foldl (computeDispatch cur next) st).vars
                cur next v))[j]? = some (dispatchedVariable st.vars cur next v)
          rw [List.getElem?_set_self hlt]
          simp only [dispatchedVariable, hbind]

/-- Performing just the engine-wide current/next designation swap (the final
line of `compute()`), in isolation. -/
def flipIndex {α : Type} (st : GPUComputationRenderer α) : GPUComputationRenderer α :=
  { st with currentTextureIndex := nextIndex st.currentTextureIndex }

/-- `dispatchAll` is the `foldlDispatch` loop at the engine's captured indices. -/
lemma dispatchAll_spec {α : Type} (st : GPUComputationRenderer α) (n : Nat) :
    (dispatchAll st n).currentTextureIndex = st.currentTextureIndex ∧
    (dispatchAll st n).vars.length = st.vars.length ∧
    (∀ j, n ≤ j → (dispatchAll st n).vars[j]? = st.vars[j]?) ∧
    (∀ j v, j < n → st.vars[j]? = some v →
      (dispatchAll st n).vars[j]? =
        some (dispatchedVariable st.vars st.currentTextureIndex
          (nextIndex st.currentTextureIndex) v)) :=
  foldlDispatch_spec st.currentTextureIndex (nextIndex st.currentTextureIndex)
    (nextIndex_ne_symm _) st n

/-! ### A concrete engine used to instantiate the theorems below -/

/-- A concrete fragment-shader semantics over natural-number buffers: read the
sampler uniform named "field" and add one. -/
def demoShader : (String → Option Nat) → Nat := fun u => (u "field").getD 0 + 1

/-- A concrete registered variable (self-dependent, like the repository's
single `field` variable). -/
def demoVariable : ComputeVariable Nat :=
  { name := "field"
    renderTargets := fun _ => 7
    material := demoShader
    uniforms := fun _ => none
    dependencies := [0] }

/-- A concrete engine with one registered variable. -/
def demoEngine : GPUComputationRenderer Nat :=
  { vars := [demoVariable], currentTextureIndex := 0 }

/-! ### Claims about the compute engine -/

/-- Claim C1: for every set of registered variables and every call to
`compute()`, the engine-wide current/next buffer index is flipped exactly once
per call — the index after the call is the successor of the index before it,
so after n calls it has advanced exactly n times — and only after the kernels
of all registered variables have been dispatched: throughout the dispatch
loop the designation is unchanged, and no per-variable swap occurs (every
variable's current-slot render target is untouched by the whole step). -/
theorem c1_single_global_swap {α : Type} (st : GPUComputationRenderer α) :
    (compute st).currentTextureIndex = nextIndex st.currentTextureIndex ∧
    (∀ n, (dispatchAll st n).currentTextureIndex = st.currentTextureIndex) ∧
    (∀ n, (compute^[n] st).currentTextureIndex = nextIndex^[n] st.currentTextureIndex) ∧
    (∀ (i : Nat) (v : ComputeVariable α), st.vars[i]? = some v →
      ∃ v' : ComputeVariable α, (compute st).vars[i]? = some v' ∧
        v'.renderTargets st.currentTextureIndex = v.renderTargets st.currentTextureIndex) := by
  have hstep : ∀ (X : GPUComputationRenderer α),
      (compute X).currentTextureIndex = nextIndex X.currentTextureIndex := fun X => rfl
  refine ⟨rfl, fun n => (dispatchAll_spec st n).1, ?_, ?_⟩
  · intro n
    induction n with
    | zero => rfl
    | succ n ih =>
      rw [Function.iterate_succ_apply', Function.iterate_succ_apply', hstep, ih]
  · intro i v hv
    have hlt : i < st.vars.length := (List.getElem?_eq_some_iff.mp hv).1
    have h4 := (dispatchAll_spec st st.vars.length).2.2.2 i v hlt hv
    refine ⟨dispatchedVariable st.vars st.currentTextureIndex
      (nextIndex st.currentTextureIndex) v, h4, ?_⟩
    exact Function.update_noteq (nextIndex_ne_symm _) _ _

/-- Claim C1, instantiated on the concrete one-variable engine. -/
theorem c1_witness :
    (compute demoEngine).currentTextureIndex = nextIndex demoEngine.currentTextureIndex ∧
    ∃ v' : ComputeVariable Nat, (compute demoEngine).vars[0]? = some v' ∧
      v'.renderTargets demoEngine.currentTextureIndex =
        demoVariable.renderTargets demoEngine.currentTextureIndex :=
  ⟨(c1_single_global_swap demoEngine).1,
   (c1_single_global_swap demoEngine).2.2.2 0 demoVariable rfl⟩

/-- Claim C2: during a single `compute()`, every registered variable's kernel
writes only into its next (non-current) render target — the current one is
untouched — and the value written is the kernel applied to uniforms bound from
the dependencies' current render targets exactly as they stood when the step
began (the previous step's output), even though dependencies (including the
variable itself, and cyclic dependencies) may be dispatched earlier in the
same loop.  Hence the value a variable computes at step k is a function of its
dependencies' state after step k-1, never of an in-progress step-k write. -/
theorem c2_one_step_lag {α : Type} (st : GPUComputationRenderer α) (i : Nat)
    (v : ComputeVariable α) (hv : st.vars[i]? = some v)
    (_hdeps : ∀ d ∈ v.dependencies, d < st.vars.length) :
    ∃ v' : ComputeVariable α, (compute st).vars[i]? = some v' ∧
      v'.renderTargets (compute st).currentTextureIndex =
        v.material (bindDependencies st.vars st.currentTextureIndex
          v.dependencies v.uniforms) ∧
      v'.renderTargets st.currentTextureIndex = v.renderTargets st.currentTextureIndex := by
  have hlt : i < st.vars.length := (List.getElem?_eq_some_iff.mp hv).1
  have h4 := (dispatchAll_spec st st.vars.length).2.2.2 i v hlt hv
  refine ⟨dispatchedVariable st.vars st.currentTextureIndex
    (nextIndex st.currentTextureIndex) v, h4, ?_, ?_⟩
  · exact Function.update_same _ _ _
  · exact Function.update_noteq (nextIndex_ne_symm _) _ _

/-- Claim C2, instantiated on the concrete self-dependent one-variable engine. -/
theorem c2_witness :
    ∃ v' : ComputeVariable Nat, (compute demoEngine).vars[0]? = some v' ∧
      v'.renderTargets (compute demoEngine).currentTextureIndex =
        demoVariable.material (bindDependencies demoEngine.vars
          demoEngine.currentTextureIndex demoVariable.dependencies
          demoVariable.uniforms) ∧
      v'.renderTargets demoEngine.currentTextureIndex =
        demoVariable.renderTargets demoEngine.currentTextureIndex :=
  c2_one_step_lag demoEngine 0 demoVariable rfl (by decide)

/-- Claim C3: immediately after `addVariable` with an initial texture, both
render targets of the new variable's ping-pong pair hold a copy of the
supplied initial contents, so `getCurrentRenderTarget` returns the initial
contents both before and after a global swap of the current/next
designation. -/
theorem c3_double_seed {α : Type} (st : GPUComputationRenderer α) (variableName : String)
    (fragmentShader : (String → Option α) → α) (initialTexture : α) :
    (∀ idx : Fin 2,
      (addVariable st variableName fragmentShader initialTexture).2.renderTargets idx
        = initialTexture) ∧
    getCurrentRenderTarget (addVariable st variableName fragmentShader initialTexture).1
      (addVariable st variableName fragmentShader initialTexture).2 = initialTexture ∧
    getCurrentRenderTarget (flipIndex (addVariable st variableName fragmentShader initialTexture).1)
      (addVariable st variableName fragmentShader initialTexture).2 = initialTexture :=
  ⟨fun _ => rfl, rfl, rfl⟩

/-! ### Claim C7: dependency validation -/

/-- Error taxonomy of the spec relevant to `setDependencies`. -/
inductive GPUComputationError where
  | unknownVariable
deriving DecidableEq

/-- Spec-following variant of `setVariableDependencies`, for refinement
comparison: the spec demands that a dependency referencing an unregistered
variable fail eagerly with UnknownVariable at setDependencies time. -/
def setVariableDependenciesSpec {α : Type} (st : GPUComputationRenderer α) (i : Nat)
    (dependencies : List Nat) : Except GPUComputationError (GPUComputationRenderer α) :=
  if dependencies.all (fun d => d < st.vars.length) then
    Except.ok (setVariableDependencies st i dependencies)
  else
    Except.error GPUComputationError.unknownVariable

/-- Claim C7 counterexample: on the concrete one-variable engine, calling
`setVariableDependencies` with dependency index 1 (no such variable is
registered) succeeds normally, storing the list as given and leaving the rest
of the engine unchanged — whereas the spec-following variant errors with
UnknownVariable.  The source performs no validation at all. -/
theorem c7_counterexample :
    ((setVariableDependencies demoEngine 0 [1]).vars[0]?).map (fun v => v.dependencies)
        = some [1] ∧
    (setVariableDependencies demoEngine 0 [1]).currentTextureIndex =
      demoEngine.currentTextureIndex ∧
    setVariableDependenciesSpec demoEngine 0 [1] =
      Except.error GPUComputationError.unknownVariable :=
  ⟨rfl, rfl, rfl⟩

/-- Claim C7 (amended): `setVariableDependencies` performs no validation; it
unconditionally stores the given dependency list on the addressed variable and
changes nothing else — it never fails, eagerly or otherwise, regardless of
whether the dependencies are registered. -/
theorem c7_amended {α : Type} (st : GPUComputationRenderer α) (i : Nat)
    (deps : List Nat) (v : ComputeVariable α) (hv : st.vars[i]? = some v) :
    (setVariableDependencies st i deps).vars[i]? = some { v with dependencies := deps } ∧
    (setVariableDependencies st i deps).currentTextureIndex = st.currentTextureIndex ∧
    (setVariableDependencies st i deps).vars.length = st.vars.length ∧
    ∀ j : Nat, j ≠ i → (setVariableDependencies st i deps).vars[j]? = st.vars[j]? := by
  have hlt : i < st.vars.length := (List.getElem?_eq_some_iff.mp hv).1
  unfold setVariableDependencies
  rw [hv]
  refine ⟨?_, rfl, ?_, ?_⟩
  · exact List.getElem?_set_self hlt
  · exact List.length_set _ _ _
  · intro j hj
    exact List.getElem?_set_ne (fun h => hj h.symm)

/-- Claim C7 (amended), instantiated on the concrete one-variable engine. -/
theorem c7_amended_witness :
    (setVariableDependencies demoEngine 0 [0]).vars[0]? =
        some { demoVariable with dependencies := [0] } ∧
    (setVariableDependencies demoEngine 0 [0]).currentTextureIndex =
      demoEngine.currentTextureIndex ∧
    (setVariableDependencies demoEngine 0 [0]).vars.length = demoEngine.vars.length ∧
    ∀ j : Nat, j ≠ 0 → (setVariableDependencies demoEngine 0 [0]).vars[j]? =
      demoEngine.vars[j]? :=
  c7_amended demoEngine 0 [0] demoVariable rfl

/-! ### Texture addressing (wrap vs clamp)

The simulation's textures (`createTexture`, and the field variable's render
targets) are configured with `THREE.RepeatWrapping`; the lifecycle shader
additionally wraps explicitly via `fract(uv + offset * texelSize)`.  With
nearest filtering on a `W`-wide texture this addresses texel `i mod W`.  The
reduction pass render targets are instead configured with
`THREE.ClampToEdgeWrapping`: an out-of-range sample addresses the edge
texel. -/

/-- Texel index addressed by a wrapped (toroidal) read: `RepeatWrapping` /
`fract` addressing of texel `i` on an axis of `size` texels. -/
def wrapIndex (size : Nat) (i : Int) : Nat := (i % (size : Int)).toNat

/-- Texel index addressed by a clamped read: `ClampToEdgeWrapping` addressing
of texel `i` on an axis of `size` texels. -/
def clampIndex (size i : Nat) : Nat := min i (size - 1)

/-- Read a `size`-by-`size` buffer at integer texel coordinates with toroidal
wrap-around on both axes (the simulation-step addressing mode). -/
def sampleWrap {α : Type} (size : Nat) (g : Nat → Nat → α) (x y : Int) : α :=
  g (wrapIndex size x) (wrapIndex size y)

/-! ### Reduction pipeline (EnergyLifeSimulation.js + getDownsampleFragmentShader) -/

/-- One pass of the downsample chain: its input and output sizes.  (The pass
also owns a single non-ping-ponged render target of the output size, with
clamp-to-edge wrapping, and a material running the downsample fragment
shader; the target's contents are computed functionally below.) -/
structure DownsamplePass where
  inputSize : Nat
  outputSize : Nat
deriving DecidableEq, Repr

/-- The chain-construction loop of `#ensureDownsamplePipeline`:
`let size = SIMULATION_SIZE; while (size > 1) { outputSize = Math.max(1, size >> 1); ...push...; size = outputSize }`. -/
def buildDownsamplePasses (size : Nat) : List DownsamplePass :=
  if _h : 1 < size then
    let outputSize := max 1 (size >>> 1)
    { inputSize := size, outputSize := outputSize } :: buildDownsamplePasses outputSize
  else
    []
termination_by size
decreasing_by
  simp only [Nat.shiftRight_eq_div_pow, pow_one]
  omega

/-- `getDownsampleFragmentShader`: output texel (x, y) averages the four input
texels (2x, 2y), (2x+1, 2y), (2x, 2y+1), (2x+1, 2y+1), each addressed with the
pass target's clamp-to-edge mode, weighted `* 0.25`.  The input texel size
uniform is `1 / pass.inputSize` as set by `#computeAverage`. -/
def downsampleStep {α : Type} [LinearOrderedField α] (inputSize : Nat)
    (inputTexture : Nat → Nat → α) : Nat → Nat → α :=
  fun x y =>
    (inputTexture (clampIndex inputSize (2 * x)) (clampIndex inputSize (2 * y)) +
     inputTexture (clampIndex inputSize (2 * x + 1)) (clampIndex inputSize (2 * y)) +
     inputTexture (clampIndex inputSize (2 * x)) (clampIndex inputSize (2 * y + 1)) +
     inputTexture (clampIndex inputSize (2 * x + 1)) (clampIndex inputSize (2 * y + 1)))
      * (1 / 4)

/-- The pass-execution loop of `#computeAverage` followed by the 1-by-1
read-back: run every pass in order, threading the output texture, then read
pixel (0, 0) of `downsamplePasses[downsamplePasses.length - 1]`'s render
target.  When the pass chain is empty that last pass is `undefined` and the
read-back faults, which the model reports as `none`. -/
def runDownsamplePasses {α : Type} [LinearOrderedField α] (passes : List DownsamplePass)
    (fieldTexture : Nat → Nat → α) : Option α :=
  let finalTexture := passes.foldl
    (fun currentTexture pass => downsampleStep pass.inputSize currentTexture) fieldTexture
  match passes with
  | [] => none
  | _ :: _ => some (finalTexture 0 0)

/-- The slice of `EnergyLifeSimulation` state relevant to the reduction
pipeline and the size-change path. -/
structure EnergySimState where
  simulationSize : Nat
  downsamplePasses : List DownsamplePass
  chartHistory : List Nat
  computeRendererSize : Option Nat
deriving DecidableEq, Repr

/-- `#ensureDownsamplePipeline`: if passes already exist, return; otherwise
build the chain for the module constant `SIMULATION_SIZE` (passed here as the
parameter `SIMULATION_SIZE`; it is 512 in `config/constants.js`).  Note the
builder starts from the constant, not from `this.simulationSize`. -/
def ensureDownsamplePipeline (SIMULATION_SIZE : Nat) (st : EnergySimState) : EnergySimState :=
  if 0 < st.downsamplePasses.length then st
  else { st with downsamplePasses := buildDownsamplePasses SIMULATION_SIZE }

/-- `#computeAverage(fieldTexture)`: ensure the pipeline, run all passes, read
back the single pixel.  Returns the updated state and the read-back value
(`none` models the fault on an empty chain). -/
def computeAverage {α : Type} [LinearOrderedField α] (SIMULATION_SIZE : Nat)
    (st : EnergySimState) (fieldTexture : Nat → Nat → α) : EnergySimState × Option α :=
  let st' := ensureDownsamplePipeline SIMULATION_SIZE st
  (st', runDownsamplePasses st'.downsamplePasses fieldTexture)

/-- `#initComputeRenderer`: creates a fresh GPUComputationRenderer at
`this.simulationSize` (recorded here by its size). -/
def initComputeRenderer (st : EnergySimState) : EnergySimState :=
  { st with computeRendererSize := some st.simulationSize }

/-- `#reinitializeSimulation`: dispose the old compute renderer, clear the
chart history, re-create the compute renderer at the new size.  The
`downsamplePasses` array is not touched. -/
def reinitializeSimulation (st : EnergySimState) : EnergySimState :=
  initComputeRenderer { st with chartHistory := [] }

/-- The `simulationSize` change handler in `#setupControls`: ignore a no-op
change, otherwise store the new size and reinitialize. -/
def onSimulationSizeChange (st : EnergySimState) (newSize : Nat) : EnergySimState :=
  if newSize = st.simulationSize then st
  else reinitializeSimulation { st with simulationSize := newSize }

/-! ### Claim C4: the reduction chain construction -/

lemma downsampleOutput_lt {size : Nat} (h : 1 < size) : max 1 (size >>> 1) < size := by
  simp only [Nat.shiftRight_eq_div_pow, pow_one]
  omega

lemma buildDownsamplePasses_pos {size : Nat} (h : 1 < size) :
    buildDownsamplePasses size =
      { inputSize := size, outputSize := max 1 (size >>> 1) } ::
        buildDownsamplePasses (max 1 (size >>> 1)) := by
  conv_lhs => rw [buildDownsamplePasses.eq_def]
  simp [h]

lemma buildDownsamplePasses_nil {size : Nat} (h : ¬ 1 < size) :
    buildDownsamplePasses size = [] := by
  conv_lhs => rw [buildDownsamplePasses.eq_def]
  simp [h]

lemma buildDownsamplePasses_output (N : Nat) :
    ∀ pass ∈ buildDownsamplePasses N, pass.outputSize = max 1 (pass.inputSize >>> 1) := by
  induction N using Nat.strong_induction_on with
  | _ N ih =>
    by_cases h : 1 < N
    · rw [buildDownsamplePasses_pos h]
      intro pass hpass
      rcases List.mem_cons.mp hpass with rfl | hmem
      · rfl
      · exact ih _ (downsampleOutput_lt h) pass hmem
    · rw [buildDownsamplePasses_nil h]
      intro pass hpass
      cases hpass

lemma buildDownsamplePasses_length_le (N : Nat) :
    (buildDownsamplePasses N).length ≤ N := by
  induction N using Nat.strong_induction_on with
  | _ N ih =>
    by_cases h : 1 < N
    · rw [buildDownsamplePasses_pos h]
      have hlt := downsampleOutput_lt h
      have := ih _ hlt
      simp only [List.length_cons]
      omega
    · rw [buildDownsamplePasses_nil h]
      simp only [List.length_nil]
      omega

lemma buildDownsamplePasses_dropLast (N : Nat) :
    ∀ pass ∈ (buildDownsamplePasses N).dropLast, 1 < pass.outputSize := by
  induction N using Nat.strong_induction_on with
  | _ N ih =>
    by_cases h : 1 < N
    · rw [buildDownsamplePasses_pos h]
      by_cases hM : 1 < max 1 (N >>> 1)
      · have hne : buildDownsamplePasses (max 1 (N >>> 1)) ≠ [] := by
          rw [buildDownsamplePasses_pos hM]
          simp
        rw [List.dropLast_cons_of_ne_nil hne]
        intro pass hpass
        rcases List.mem_cons.mp hpass with rfl | hmem
        · exact hM
        · exact ih _ (downsampleOutput_lt h) pass hmem
      · rw [buildDownsamplePasses_nil hM]
        intro pass hpass
        cases hpass
    · rw [buildDownsamplePasses_nil h]
      intro pass hpass
      cases hpass

lemma buildDownsamplePasses_getLast (N : Nat) (h : 1 < N) :
    ∃ pass : DownsamplePass, (buildDownsamplePasses N).getLast? = some pass ∧
      pass.outputSize = 1 := by
  induction N using Nat.strong_induction_on with
  | _ N ih =>
    rw [buildDownsamplePasses_pos h]
    by_cases hM : 1 < max 1 (N >>> 1)
    · obtain ⟨p, hp, hp1⟩ := ih _ (downsampleOutput_lt h) hM
      refine ⟨p, ?_, hp1⟩
      rw [List.getLast?_cons, hp]
      rfl
    · have hM1 : max 1 (N >>> 1) = 1 := by omega
      rw [buildDownsamplePasses_nil hM]
      exact ⟨_, rfl, hM1⟩

lemma buildDownsamplePasses_pow (k : Nat) :
    (buildDownsamplePasses (2 ^ k)).length = k := by
  induction k with
  | zero => rw [pow_zero, buildDownsamplePasses_nil (by omega)]; rfl
  | succ k ih =>
    have h2 : 1 < 2 ^ (k + 1) := by
      have : 1 ≤ 2 ^ k := Nat.one_le_two_pow
      calc 1 < 2 := by omega
        _ ≤ 2 ^ (k + 1) := by
          rw [pow_succ]
          omega
    have hhalf : max 1 (2 ^ (k + 1) >>> 1) = 2 ^ k := by
      have : 2 ^ (k + 1) >>> 1 = 2 ^ k := by
        simp only [Nat.shiftRight_eq_div_pow, pow_one, pow_succ]
        exact Nat.mul_div_cancel _ (by omega)
      rw [this]
      have : 1 ≤ 2 ^ k := Nat.one_le_two_pow
      omega
    rw [buildDownsamplePasses_pos h2, hhalf, List.length_cons, ih]

/-- Claim C4: for every grid size N ≥ 1, each constructed pass's output size
equals max(1, inputSize >> 1); the chain-construction loop terminates (the
chain has at most N passes — and `buildDownsamplePasses` is a total function,
so the loop terminates by construction); the chain ends exactly at the first
pass whose output size equals 1 (all passes before the last have output size
greater than 1, and for N > 1 the last pass has output size exactly 1); for
N = 1 the chain is empty; and for every power of two N = 2^k the chain has
exactly k = log2(N) passes. -/
theorem c4_chain_invariants (N : Nat) (_hN : 1 ≤ N) :
    (∀ pass ∈ buildDownsamplePasses N, pass.outputSize = max 1 (pass.inputSize >>> 1)) ∧
    (buildDownsamplePasses N).length ≤ N ∧
    (∀ pass ∈ (buildDownsamplePasses N).dropLast, 1 < pass.outputSize) ∧
    (1 < N → ∃ pass : DownsamplePass,
      (buildDownsamplePasses N).getLast? = some pass ∧ pass.outputSize = 1) ∧
    (N = 1 → buildDownsamplePasses N = []) ∧
    (∀ k : Nat, (buildDownsamplePasses (2 ^ k)).length = k) :=
  ⟨buildDownsamplePasses_output N, buildDownsamplePasses_length_le N,
   buildDownsamplePasses_dropLast N, buildDownsamplePasses_getLast N,
   fun hN1 => by rw [hN1]; exact buildDownsamplePasses_nil (by omega),
   buildDownsamplePasses_pow⟩

/-- Claim C4, instantiated at the concrete grid size 8 = 2^3. -/
theorem c4_witness :
    1 ≤ 8 ∧ (buildDownsamplePasses 8).length ≤ 8 ∧ (buildDownsamplePasses 2).length = 1 := by
  refine ⟨by norm_num, (c4_chain_invariants 8 (by norm_num)).2.1, ?_⟩
  have h := (c4_chain_invariants 8 (by norm_num)).2.2.2.2.2 1
  norm_num at h
  exact h

/-! ### Constant-field behaviour of the reduction (Claims C5, C8, C9) -/

/-- The reduction-relevant state of a freshly constructed simulation:
`downsamplePasses = []`, `chartHistory = []`, no compute renderer yet. -/
def initialEnergySimState (SIMULATION_SIZE : Nat) : EnergySimState :=
  { simulationSize := SIMULATION_SIZE
    downsamplePasses := []
    chartHistory := []
    computeRendererSize := none }

lemma downsampleStep_const {α : Type} [LinearOrderedField α] (inputSize : Nat) (c : α) :
    downsampleStep inputSize (fun _ _ => c) = fun _ _ => c := by
  funext x y
  simp only [downsampleStep]
  ring

lemma foldl_downsample_const {α : Type} [LinearOrderedField α]
    (passes : List DownsamplePass) (c : α) :
    passes.foldl (fun currentTexture pass => downsampleStep pass.inputSize currentTexture)
      (fun _ _ => c) = fun _ _ => c := by
  induction passes with
  | nil => rfl
  | cons p rest ih =>
    rw [List.foldl_cons, downsampleStep_const]
    exact ih

lemma runDownsamplePasses_const {α : Type} [LinearOrderedField α]
    (passes : List DownsamplePass) (hne : passes ≠ []) (c : α) :
    runDownsamplePasses passes (fun _ _ => c) = some c := by
  unfold runDownsamplePasses
  cases passes with
  | nil => exact absurd rfl hne
  | cons p rest =>
    simp only
    rw [foldl_downsample_const (p :: rest) c]

/-- Claim C5 counterexample: with the engine's grid size 1x1 at construction,
the pass chain is empty and `#computeAverage` reads
`downsamplePasses[downsamplePasses.length - 1].renderTarget` with an undefined
last pass: the read-back faults (`none`) instead of returning the constant 1
as the claim demands for every power-of-two size from 1x1 up. -/
theorem c5_counterexample :
    (computeAverage 1 (initialEnergySimState 1) (fun _ _ => (1 : ℚ))).2 ≠ some 1 ∧
    (computeAverage 1 (initialEnergySimState 1) (fun _ _ => (1 : ℚ))).2 = none := by
  have h : (computeAverage 1 (initialEnergySimState 1) (fun _ _ => (1 : ℚ))).2 = none := by
    simp [computeAverage, ensureDownsamplePipeline, initialEnergySimState,
      runDownsamplePasses, buildDownsamplePasses]
  exact ⟨by rw [h]; simp, h⟩

/-- Claim C5 (amended): for every power-of-two grid size of at least 2x2
(2^k with k ≥ 1), reducing a buffer whose channel-0 cells all hold the
constant c returns exactly c (the model computes over an exact field, so the
float32-epsilon allowance is met with equality); at 1x1 the pass chain is
empty and the reduction faults instead of returning c. -/
theorem c5_constant_reduction (k : Nat) (hk : 1 ≤ k) (c : ℚ) (st : EnergySimState)
    (hst : st.downsamplePasses = []) :
    (computeAverage (2 ^ k) st (fun _ _ => c)).2 = some c := by
  have h2 : 1 < 2 ^ k := by
    calc 1 < 2 := by omega
      _ ≤ 2 ^ k := by
        calc 2 = 2 ^ 1 := (pow_one 2).symm
          _ ≤ 2 ^ k := Nat.pow_le_pow_right (by omega) hk
  have hne : buildDownsamplePasses (2 ^ k) ≠ [] := by
    rw [buildDownsamplePasses_pos h2]
    simp
  have hlen : ¬ 0 < st.downsamplePasses.length := by
    rw [hst]
    simp
  unfold computeAverage ensureDownsamplePipeline
  rw [if_neg hlen]
  exact runDownsamplePasses_const _ hne c

/-- Claim C5 (amended), instantiated at grid size 4 = 2^2 and constant 3/4. -/
theorem c5_witness :
    1 ≤ 2 ∧
    (computeAverage (2 ^ 2) (initialEnergySimState 4) (fun _ _ => (3 / 4 : ℚ))).2 =
      some (3 / 4) :=
  ⟨by norm_num, c5_constant_reduction 2 (by norm_num) (3 / 4) (initialEnergySimState 4) rfl⟩

/-- Claim C8 counterexample: at grid size 1x1 zero passes are built (that part
of the claim holds), but `reduce` does not return the single source value (5
here) without invoking the pipeline — it faults on the undefined last pass. -/
theorem c8_counterexample :
    (computeAverage 1 (initialEnergySimState 1) (fun _ _ => (5 : ℚ))).2 ≠ some 5 ∧
    (computeAverage 1 (initialEnergySimState 1) (fun _ _ => (5 : ℚ))).1.downsamplePasses
      = [] := by
  constructor
  · have h : (computeAverage 1 (initialEnergySimState 1) (fun _ _ => (5 : ℚ))).2 = none := by
      simp [computeAverage, ensureDownsamplePipeline, initialEnergySimState,
        runDownsamplePasses, buildDownsamplePasses]
    rw [h]
    simp
  · simp [computeAverage, ensureDownsamplePipeline, initialEnergySimState,
      buildDownsamplePasses]

/-- Claim C8 (amended): if the engine's grid size is 1x1 at construction, zero
reduction passes are built, and `reduce` faults on the empty chain (the
read-back of the undefined last pass, modeled as `none`) rather than
returning the single source value. -/
theorem c8_empty_chain_faults (st : EnergySimState) (hst : st.downsamplePasses = [])
    (src : Nat → Nat → ℚ) :
    (computeAverage 1 st src).1.downsamplePasses = [] ∧
    (computeAverage 1 st src).2 = none := by
  have hlen : ¬ 0 < st.downsamplePasses.length := by
    rw [hst]
    simp
  have hb : buildDownsamplePasses 1 = [] := buildDownsamplePasses_nil (by omega)
  unfold computeAverage ensureDownsamplePipeline
  rw [if_neg hlen]
  constructor
  · exact hb
  · simp only [hb]
    rfl

/-- Claim C8 (amended), instantiated on a fresh 1x1 engine. -/
theorem c8_witness :
    (computeAverage 1 (initialEnergySimState 1) (fun _ _ => (0 : ℚ))).1.downsamplePasses
        = [] ∧
    (computeAverage 1 (initialEnergySimState 1) (fun _ _ => (0 : ℚ))).2 = none :=
  c8_empty_chain_faults (initialEnergySimState 1) rfl (fun _ _ => 0)

/-- Claim C9 counterexample: build the chain once at the constant grid size
512, then change the grid size to 256.  The reinitialization path leaves
`downsamplePasses` untouched and the (re-)ensured chain's first pass still has
input size 512 — not the engine's current grid size 256 — refuting the claim
that the chain is rebuilt for the new size on a size change. -/
theorem c9_counterexample :
    ((ensureDownsamplePipeline 512 (onSimulationSizeChange
        (computeAverage 512 (initialEnergySimState 512)
          (fun _ _ => (0 : ℚ))).1 256)).downsamplePasses.head?.map
      (fun pass => pass.inputSize)) = some 512 ∧
    (onSimulationSizeChange
        (computeAverage 512 (initialEnergySimState 512)
          (fun _ _ => (0 : ℚ))).1 256).simulationSize = 256 ∧
    (512 : Nat) ≠ 256 := by
  have h512 : max 1 (512 >>> 1) = 256 := by
    simp [Nat.shiftRight_eq_div_pow]
  have hb : buildDownsamplePasses 512 =
      { inputSize := 512, outputSize := 256 } :: buildDownsamplePasses 256 := by
    rw [buildDownsamplePasses_pos (by norm_num), h512]
  refine ⟨?_, ?_, by decide⟩
  · simp [computeAverage, ensureDownsamplePipeline, initialEnergySimState,
      onSimulationSizeChange, reinitializeSimulation, initComputeRenderer, hb]
  · simp [computeAverage, ensureDownsamplePipeline, initialEnergySimState,
      onSimulationSizeChange, reinitializeSimulation, initComputeRenderer]

/-- Claim C9 (amended): the pass chain is constructed lazily on the first
reduce request — from the module constant SIMULATION_SIZE — and memoized
(reused untouched whenever it is nonempty); but it is never rebuilt on a grid
size change: both `#reinitializeSimulation` and the size-change handler leave
`downsamplePasses` untouched, so after a size change the chain still reflects
the constant construction-time size, not the current grid size. -/
theorem c9_lazy_memoized_never_rebuilt (SIMULATION_SIZE newSize : Nat) (st : EnergySimState) :
    (st.downsamplePasses = [] →
      (ensureDownsamplePipeline SIMULATION_SIZE st).downsamplePasses =
        buildDownsamplePasses SIMULATION_SIZE) ∧
    (st.downsamplePasses ≠ [] → ensureDownsamplePipeline SIMULATION_SIZE st = st) ∧
    (reinitializeSimulation st).downsamplePasses = st.downsamplePasses ∧
    (onSimulationSizeChange st newSize).downsamplePasses = st.downsamplePasses := by
  refine ⟨?_, ?_, rfl, ?_⟩
  · intro hst
    have hlen : ¬ 0 < st.downsamplePasses.length := by
      rw [hst]
      simp
    unfold ensureDownsamplePipeline
    rw [if_neg hlen]
  · intro hst
    have hlen : 0 < st.downsamplePasses.length := List.length_pos.mpr hst
    unfold ensureDownsamplePipeline
    rw [if_pos hlen]
  · unfold onSimulationSizeChange reinitializeSimulation initComputeRenderer
    split <;> rfl

/-- Claim C9 (amended), instantiated: lazy build on a fresh state, memoized
reuse on a state that already has a (one-pass) chain, and preservation of the
chain across a 512-to-256 size change. -/
theorem c9_witness :
    (ensureDownsamplePipeline 512 (initialEnergySimState 512)).downsamplePasses =
        buildDownsamplePasses 512 ∧
    ensureDownsamplePipeline 512
        { initialEnergySimState 512 with
            downsamplePasses := [{ inputSize := 512, outputSize := 256 }] } =
      { initialEnergySimState 512 with
          downsamplePasses := [{ inputSize := 512, outputSize := 256 }] } ∧
    (onSimulationSizeChange (initialEnergySimState 512) 256).downsamplePasses =
      (initialEnergySimState 512).downsamplePasses :=
  ⟨(c9_lazy_memoized_never_rebuilt 512 256 (initialEnergySimState 512)).1 rfl,
   (c9_lazy_memoized_never_rebuilt 512 256 _).2.1 (by simp),
   (c9_lazy_memoized_never_rebuilt 512 256 (initialEnergySimState 512)).2.2.2⟩

/-! ### Claim C6: wrap in simulation sampling, clamp in reduction sampling -/

lemma wrapIndex_self (W : Nat) : wrapIndex W (W : Int) = 0 := by
  simp [wrapIndex, Int.emod_self]

lemma wrapIndex_neg_one {W : Nat} (hW : 1 ≤ W) : wrapIndex W (-1) = W - 1 := by
  unfold wrapIndex
  have hW' : (1 : Int) ≤ (W : Int) := by exact_mod_cast hW
  have h1 : (-1 : Int) % (W : Int) = (W : Int) - 1 := by
    have h2 : ((-1 : Int) + (W : Int) * 1) % (W : Int) = (-1 : Int) % (W : Int) :=
      Int.add_mul_emod_self_left (-1) (W : Int) 1
    have h3 : ((W : Int) - 1) % (W : Int) = (W : Int) - 1 :=
      Int.emod_eq_of_lt (by omega) (by omega)
    calc (-1 : Int) % (W : Int) = ((-1 : Int) + (W : Int) * 1) % (W : Int) := h2.symm
      _ = ((W : Int) - 1) % (W : Int) := by congr 1; ring
      _ = (W : Int) - 1 := h3
  rw [h1]
  omega

/-- A concrete asymmetric buffer for instantiating the sampling theorems. -/
def demoGrid : Nat → Nat → Nat := fun x y => x + 10 * y

/-- Claim C6: neighbor sampling during a simulation step (the `sampleWrap`
addressing used by the lifecycle kernel, from `fract(uv + offset*texelSize)`
with `RepeatWrapping` textures) is toroidal — a read at column W on a W-wide
buffer reads column 0, and a read at column -1 reads column W-1 — whereas the
reduction passes sample their clamp-to-edge render targets (the `clampIndex`
addressing used by `downsampleStep`): a sample beyond the last texel is
clamped to the edge texel size-1, never wrapped to the opposite edge (at
column `size` the wrap mode would give column 0, the clamp mode gives
size-1). -/
theorem c6_wrap_vs_clamp {α : Type} (W size i : Nat) (g : Nat → Nat → α) (y : Int)
    (hW : 1 ≤ W) (hsize : 1 ≤ size) (hi : size ≤ i) :
    sampleWrap W g (W : Int) y = sampleWrap W g 0 y ∧
    sampleWrap W g (-1) y = g (W - 1) (wrapIndex W y) ∧
    clampIndex size i = size - 1 ∧
    (2 ≤ size → wrapIndex size (size : Int) = 0 ∧ clampIndex size size = size - 1 ∧
      size - 1 ≠ 0) := by
  refine ⟨?_, ?_, ?_, ?_⟩
  · unfold sampleWrap
    rw [wrapIndex_self]
    rfl
  · unfold sampleWrap
    rw [wrapIndex_neg_one hW]
  · unfold clampIndex
    omega
  · intro h2
    refine ⟨wrapIndex_self size, ?_, by omega⟩
    unfold clampIndex
    omega

/-- Claim C6, instantiated at W = 4, a clamped out-of-range read at texel 9 of
a 4-texel axis, and the wrap/clamp contrast at texel 4. -/
theorem c6_witness :
    sampleWrap 4 demoGrid (4 : Int) 5 = sampleWrap 4 demoGrid 0 5 ∧
    sampleWrap 4 demoGrid (-1) 5 = demoGrid 3 (wrapIndex 4 5) ∧
    clampIndex 4 9 = 3 ∧
    (2 ≤ 4 → wrapIndex 4 (4 : Int) = 0 ∧ clampIndex 4 4 = 3 ∧ 4 - 1 ≠ 0) :=
  c6_wrap_vs_clamp 4 4 9 demoGrid 5 (by norm_num) (by norm_num) (by norm_num)

/-! ### The lifecycle kernel (src/shaders/lifecycle.glsl, via getLifecycleShader)

GLSL floats are modeled as real numbers.  Texture reads on the field and on
the interaction texture use the toroidal `sampleWrap` addressing (both
textures use `RepeatWrapping`, and the kernel loop wraps explicitly with
`fract(uv + offset * texelSize)`).  The fragment at integer grid cell
(fragX, fragY) has `gl_FragCoord.xy = (fragX + 0.5, fragY + 0.5)` and
`uv = gl_FragCoord.xy * texelSize` with `texelSize = 1 / W`. -/

/-- The scalar uniforms of the lifecycle shader. -/
structure LifecycleParams where
  innerRadius : ℝ
  innerStrength : ℝ
  outerRadius : ℝ
  outerStrength : ℝ
  growthCenter : ℝ
  growthWidth : ℝ
  growthRate : ℝ
  suppressionFactor : ℝ
  globalAverage : ℝ
  decayRate : ℝ
  diffusionRate : ℝ
  fissionThreshold : ℝ
  instabilityFactor : ℝ

/-- GLSL `clamp(x, minVal, maxVal) = min(max(x, minVal), maxVal)`. -/
def glslClamp (x minVal maxVal : ℝ) : ℝ := min (max x minVal) maxVal

/-- GLSL `dot` on `vec2`. -/
def dot2 (a b : ℝ × ℝ) : ℝ := a.1 * b.1 + a.2 * b.2

/-- `float random(vec2 co) { return fract(sin(dot(co, vec2(12.9898, 78.233))) * 43758.5453); }` -/
noncomputable def random (co : ℝ × ℝ) : ℝ :=
  Int.fract (Real.sin (dot2 co (12.9898, 78.233)) * 43758.5453)

/-- `float kernelWeight(float dist)`: inner quadratic-falloff attraction plus
outer Gaussian-envelope repulsion. -/
noncomputable def kernelWeight (p : LifecycleParams) (dist : ℝ) : ℝ :=
  let weight : ℝ := 0
  let weight := if dist < p.innerRadius then
      weight + p.innerStrength * (1 - dist / p.innerRadius) * (1 - dist / p.innerRadius)
    else weight
  let ringStart := p.innerRadius + 1
  let ringEnd := p.outerRadius
  if ringStart < dist ∧ dist < ringEnd then
    weight + p.outerStrength *
      Real.exp (-2 * ((dist - ringStart) / (ringEnd - ringStart)) *
        ((dist - ringStart) / (ringEnd - ringStart)))
  else weight

/-- `float growthFunction(float potential, float currentEnergy)`: Gaussian bell
curve, reduced by fission instability above the threshold. -/
noncomputable def growthFunction (p : LifecycleParams) (potential currentEnergy : ℝ) : ℝ :=
  let x := (potential - p.growthCenter) / p.growthWidth
  let bellCurve := Real.exp (-x * x * 0.5)
  if p.fissionThreshold < currentEnergy then
    bellCurve - ((currentEnergy - p.fissionThreshold) / (1 - p.fissionThreshold)) *
      p.instabilityFactor
  else bellCurve

/-- `float laplacian(vec2 uv)`: 4-neighbor von Neumann stencil, sampled with
the field texture's wrap addressing. -/
noncomputable def laplacian (W : Nat) (field : Nat → Nat → ℝ) (x y : Int) : ℝ :=
  sampleWrap W field (x - 1) y + sampleWrap W field (x + 1) y +
    sampleWrap W field x (y - 1) + sampleWrap W field x (y + 1) -
    4 * sampleWrap W field x y

/-- `void main()` of the lifecycle shader, at fragment (fragX, fragY) of a
W-by-W target: returns the `gl_FragColor` vec4.  `kernelSize` is the constant
`KERNEL_SIZE = 10` interpolated into the shader source. -/
noncomputable def lifecycleMain (p : LifecycleParams) (W : Nat)
    (field : Nat → Nat → ℝ) (interactionTexture : Nat → Nat → ℝ × ℝ × ℝ)
    (fragX fragY : Nat) : ℝ × ℝ × ℝ × ℝ :=
  let uv : ℝ × ℝ := (((fragX : ℝ) + 0.5) / (W : ℝ), ((fragY : ℝ) + 0.5) / (W : ℝ))
  let currentEnergy := sampleWrap W field (fragX : Int) (fragY : Int)
  let interaction := sampleWrap W interactionTexture (fragX : Int) (fragY : Int)
  -- STEP 1: neighborhood potential over the kernel loop, dx, dy in [-10, 10]
  let offsets := Finset.Icc (-(10 : Int)) 10 ×ˢ Finset.Icc (-(10 : Int)) 10
  let contribution : Int × Int → ℝ × ℝ := fun d =>
    let dist := Real.sqrt ((d.1 : ℝ) * (d.1 : ℝ) + (d.2 : ℝ) * (d.2 : ℝ))
    if dist ≤ p.outerRadius then
      let neighborEnergy := sampleWrap W field ((fragX : Int) + d.1) ((fragY : Int) + d.2)
      let weight := kernelWeight p dist + interaction.2.1 * 2 - interaction.2.2 * 2
      (neighborEnergy * weight, |weight|)
    else (0, 0)
  let potential := Finset.sum offsets fun d => (contribution d).1
  let totalWeight := Finset.sum offsets fun d => (contribution d).2
  let potential := if 0 < totalWeight then potential / totalWeight else potential
  -- STEP 2: growth
  let growth := growthFunction p potential currentEnergy - 0.5
  let growth := growth - p.globalAverage * p.suppressionFactor
  -- STEP 3: metabolism
  let metabolism := currentEnergy * currentEnergy * p.decayRate
  -- STEP 4: diffusion
  let diffusion := laplacian W field (fragX : Int) (fragY : Int) * p.diffusionRate
  -- STEP 5: fission noise
  let fissionNoise :=
    if p.fissionThreshold < currentEnergy then
      let excess := (currentEnergy - p.fissionThreshold) / (1 - p.fissionThreshold)
      let chaos := Real.sin (dot2
        (uv.1 * 100 + currentEnergy * 50, uv.2 * 100 + currentEnergy * 50)
        (12.9898, 78.233))
      chaos * excess * 0.1
    else 0
  -- STEP 6: user interaction
  let interactionEnergy := interaction.1 * 0.1
  -- STEP 7: energy update, stagnation noise, clamp, write-out
  let deltaEnergy := p.growthRate * growth - metabolism + diffusion + fissionNoise +
    interactionEnergy
  let newEnergy := currentEnergy + deltaEnergy
  let noise := (random (uv.1 + currentEnergy, uv.2 + currentEnergy) - 0.5) * 0.001
  let newEnergy := newEnergy + noise
  let newEnergy := glslClamp newEnergy 0 1
  (newEnergy, 0, 0, 1)

/-- One simulation step of the field variable: every cell of the next buffer
is the energy channel the lifecycle kernel writes for that cell. -/
noncomputable def stepField (p : LifecycleParams)
    (interactionTexture : Nat → Nat → ℝ × ℝ × ℝ) (W : Nat)
    (field : Nat → Nat → ℝ) : Nat → Nat → ℝ :=
  fun x y => (lifecycleMain p W field interactionTexture x y).1

/-- n simulation steps from a seeded field, with per-step parameters and
interaction textures (sliders and pointer input may change between steps). -/
noncomputable def evolveField
    (inputs : Nat → LifecycleParams × (Nat → Nat → ℝ × ℝ × ℝ)) (W : Nat) :
    Nat → (Nat → Nat → ℝ) → Nat → Nat → ℝ
  | 0, field => field
  | n + 1, field => stepField (inputs n).1 (inputs n).2 W (evolveField inputs W n field)

lemma glslClamp_mem (x : ℝ) : 0 ≤ glslClamp x 0 1 ∧ glslClamp x 0 1 ≤ 1 :=
  ⟨le_min (le_max_right x 0) zero_le_one, min_le_right _ _⟩

lemma lifecycleMain_energy_mem (p : LifecycleParams) (W : Nat)
    (field : Nat → Nat → ℝ) (interactionTexture : Nat → Nat → ℝ × ℝ × ℝ)
    (fragX fragY : Nat) :
    0 ≤ (lifecycleMain p W field interactionTexture fragX fragY).1 ∧
      (lifecycleMain p W field interactionTexture fragX fragY).1 ≤ 1 := by
  have h : ∃ e : ℝ, (lifecycleMain p W field interactionTexture fragX fragY).1 =
      glslClamp e 0 1 := ⟨_, rfl⟩
  obtain ⟨e, he⟩ := h
  rw [he]
  exact glslClamp_mem e

lemma downsampleStep_bounds {α : Type} [LinearOrderedField α] (inputSize : Nat)
    (g : Nat → Nat → α) (hg : ∀ x y, 0 ≤ g x y ∧ g x y ≤ 1) :
    ∀ x y, 0 ≤ downsampleStep inputSize g x y ∧ downsampleStep inputSize g x y ≤ 1 := by
  intro x y
  have ha := hg (clampIndex inputSize (2 * x)) (clampIndex inputSize (2 * y))
  have hb := hg (clampIndex inputSize (2 * x + 1)) (clampIndex inputSize (2 * y))
  have hc := hg (clampIndex inputSize (2 * x)) (clampIndex inputSize (2 * y + 1))
  have hd := hg (clampIndex inputSize (2 * x + 1)) (clampIndex inputSize (2 * y + 1))
  unfold downsampleStep
  constructor
  · nlinarith [ha.1, hb.1, hc.1, hd.1]
  · nlinarith [ha.2, hb.2, hc.2, hd.2]

lemma foldl_downsample_bounds {α : Type} [LinearOrderedField α]
    (passes : List DownsamplePass) :
    ∀ (g : Nat → Nat → α), (∀ x y, 0 ≤ g x y ∧ g x y ≤ 1) →
      ∀ x y,
        0 ≤ (passes.foldl (fun currentTexture pass =>
              downsampleStep pass.inputSize currentTexture) g) x y ∧
        (passes.foldl (fun currentTexture pass =>
              downsampleStep pass.inputSize currentTexture) g) x y ≤ 1 := by
  induction passes with
  | nil => intro g hg; exact hg
  | cons p rest ih =>
    intro g hg
    rw [List.foldl_cons]
    exact ih _ (downsampleStep_bounds _ _ hg)

lemma runDownsamplePasses_bounds {α : Type} [LinearOrderedField α]
    (passes : List DownsamplePass) (g : Nat → Nat → α)
    (hg : ∀ x y, 0 ≤ g x y ∧ g x y ≤ 1) (r : α)
    (hr : runDownsamplePasses passes g = some r) : 0 ≤ r ∧ r ≤ 1 := by
  unfold runDownsamplePasses at hr
  cases passes with
  | nil => cases hr
  | cons p rest =>
    simp only at hr
    have := Option.some.inj hr
    rw [← this]
    exact foldl_downsample_bounds (p :: rest) g hg 0 0

/-- Claim C10: every value the per-cell lifecycle kernel writes to the energy
channel (channel 0) is clamped into [0,1]; consequently, starting from any
seeded state, channel 0 of every cell of every reachable post-step buffer
(any positive number of steps, any per-step parameters and interaction
textures) lies in [0,1]; and any reduced average the downsample chain computes
from a buffer whose channel-0 cells lie in [0,1] also lies in [0,1]. -/
theorem c10_energy_clamped :
    (∀ (p : LifecycleParams) (W : Nat) (field : Nat → Nat → ℝ)
        (interactionTexture : Nat → Nat → ℝ × ℝ × ℝ) (fragX fragY : Nat),
      0 ≤ (lifecycleMain p W field interactionTexture fragX fragY).1 ∧
        (lifecycleMain p W field interactionTexture fragX fragY).1 ≤ 1) ∧
    (∀ (inputs : Nat → LifecycleParams × (Nat → Nat → ℝ × ℝ × ℝ)) (W : Nat)
        (field : Nat → Nat → ℝ) (n x y : Nat),
      0 ≤ evolveField inputs W (n + 1) field x y ∧
        evolveField inputs W (n + 1) field x y ≤ 1) ∧
    (∀ (passes : List DownsamplePass) (g : Nat → Nat → ℝ),
      (∀ x y, 0 ≤ g x y ∧ g x y ≤ 1) →
      ∀ r : ℝ, runDownsamplePasses passes g = some r → 0 ≤ r ∧ r ≤ 1) := by
  refine ⟨lifecycleMain_energy_mem, ?_, ?_⟩
  · intro inputs W field n x y
    show 0 ≤ stepField (inputs n).1 (inputs n).2 W (evolveField inputs W n field) x y ∧
      stepField (inputs n).1 (inputs n).2 W (evolveField inputs W n field) x y ≤ 1
    exact lifecycleMain_energy_mem _ _ _ _ x y
  · intro passes g hg r hr
    exact runDownsamplePasses_bounds passes g hg r hr

/-- The repository's default slider values (`config/defaults.js`). -/
noncomputable def demoParams : LifecycleParams :=
  { innerRadius := 3.5
    innerStrength := 0.9
    outerRadius := 7.5
    outerStrength := -0.4
    growthCenter := -0.17
    growthWidth := 0.0183
    growthRate := 0.607
    suppressionFactor := 1
    globalAverage := 0
    decayRate := 0.378
    diffusionRate := 0.333
    fissionThreshold := 0.796
    instabilityFactor := 1.5 }

/-- Claim C10, instantiated: the kernel output at cell (0,0) of a 4-wide zero
field under the repository's default slider values, and the reduced average of
the all-zero buffer through the 2-to-1 chain. -/
theorem c10_witness :
    (0 ≤ (lifecycleMain demoParams 4 (fun _ _ => 0) (fun _ _ => (0, 0, 0)) 0 0).1 ∧
      (lifecycleMain demoParams 4 (fun _ _ => 0) (fun _ _ => (0, 0, 0)) 0 0).1 ≤ 1) ∧
    (0 ≤ (0 : ℝ) ∧ (0 : ℝ) ≤ 1) := by
  have hne : buildDownsamplePasses 2 ≠ [] := by
    rw [buildDownsamplePasses_pos (by norm_num)]
    simp
  exact ⟨c10_energy_clamped.1 demoParams 4 (fun _ _ => 0) (fun _ _ => (0, 0, 0)) 0 0,
    c10_energy_clamped.2.2 (buildDownsamplePasses 2) (fun _ _ => 0)
      (fun _ _ => ⟨le_refl 0, zero_le_one⟩) 0 (runDownsamplePasses_const _ hne 0)⟩

end Wigle2
